import Mathlib

/-!
Shallow embedding of the RESTCONF session/authentication wrapper of this
repository (src/examples/restconf/authentication.py) and of the interface
configuration lifecycle demo (src/examples/restconf/configuration.py).

Modelling conventions:
* Time is an integer instant (`Int`); `datetime.now()` becomes an explicit
  `now : Int` argument, and `timedelta(seconds = n)` becomes addition.
* The HTTP transport (the external requests library and the remote device)
  is an oracle: each method that performs a network call takes the outcome
  of that call as an explicit argument, and reports the number of network
  round trips it attempted as the last component of its result.
* Python truthiness of the stored token (`if not self.token`) is modelled
  by `truthyStr`: `None` and the empty string are falsy.  A stored
  `datetime` is always truthy, so `not self.token_expiry` is `Option.isNone`.
* Exceptions that the source catches (requests.exceptions.RequestException,
  FileNotFoundError) appear as oracle constructors; the methods below are
  total exactly because the source converts every caught exception to a
  boolean return value.  Exceptions the source would not catch are outside
  the oracle types.
-/

/-- The subset of a requests.Session default-header dictionary that the
source ever touches: Accept, Content-Type and Authorization.  `none` means
the key is absent from the dictionary. -/
structure Headers where
  accept : Option String
  contentType : Option String
  authorization : Option String
  deriving Repr, DecidableEq

/-- The header update performed by basic_auth (lines 54-57) and
certificate_auth (lines 141-144): dict.update with Accept and Content-Type
only — any existing Authorization entry is left in place. -/
def Headers.updateStd (h : Headers) : Headers :=
  { h with accept := some "application/yang-data+json",
           contentType := some "application/yang-data+json" }

/-- Python truthiness of an optional string: None and the empty string are
falsy, every other string is truthy. -/
def truthyStr : Option String → Bool
  | none => false
  | some s => !s.isEmpty

/-- An HTTP response as seen by make_authenticated_request: the dispatcher
returns it to its caller unmodified, so it is opaque here. -/
structure Response where
  status_code : Nat
  body : String
  deriving Repr, DecidableEq

/-- Outcome of the verification probe GET issued by basic_auth: either a
2xx response (raise_for_status passes), a non-2xx response
(raise_for_status raises an HTTPError, a RequestException), or the request
itself raising a RequestException. -/
inductive HttpProbe where
  | ok
  | httpError
  | netError
  deriving Repr, DecidableEq

/-- Outcome of the verification probe issued by certificate_auth: as
`HttpProbe`, plus a FileNotFoundError for missing certificate files. -/
inductive CertProbe where
  | ok
  | httpError
  | netError
  | fileNotFound
  deriving Repr, DecidableEq

/-- Outcome of the POST to the token endpoint in token_auth: a response
carrying a status code and the two fields token_auth reads from the JSON
body (token_data.get with key token, token_data.get with key expires_in —
either may be absent), or a raised RequestException. -/
inductive TokenPost where
  | resp (status : Nat) (tok : Option String) (expires_in : Option Int)
  | exn
  deriving Repr, DecidableEq

/-- The mutable state of a RestconfAuthenticator object: session.auth
(basic credentials), session.cert (certificate pair), the session default
headers, and the token bookkeeping fields set in __init__ (lines 28-36).
host, port and base_url are immutable strings that no claim depends on and
are omitted. -/
structure RestconfAuthenticator where
  auth : Option (String × String)
  cert : Option (String × String)
  headers : Headers
  token : Option String
  token_expiry : Option Int
  deriving Repr, DecidableEq

namespace RestconfAuthenticator

/-- State after __init__ (lines 28-36): no credentials, no certificate,
no Authorization header, token and token_expiry both None. -/
def init : RestconfAuthenticator :=
  { auth := none, cert := none,
    headers := { accept := none, contentType := none, authorization := none },
    token := none, token_expiry := none }

/-- basic_auth (lines 38-68): set session.auth, update Accept/Content-Type
headers, then issue one probe GET; raise_for_status converts a non-2xx
response into a caught RequestException.  Result: new state, the returned
bool, and the number of network calls (always 1 — the probe is attempted
in every case). -/
def basic_auth (a : RestconfAuthenticator) (username password : String)
    (probe : HttpProbe) : RestconfAuthenticator × Bool × Nat :=
  let a1 := { a with auth := some (username, password),
                     headers := a.headers.updateStd }
  match probe with
  | .ok => (a1, true, 1)
  | .httpError => (a1, false, 1)
  | .netError => (a1, false, 1)

/-- token_auth (lines 70-123): POST to the token endpoint; on status 200
store the token field, compute token_expiry as now plus expires_in
(default 3600), and install the Bearer Authorization plus standard headers;
on any other status, or on a caught RequestException, return False with
the state untouched.  A token field absent from the body stores None and
formats the literal text None into the header, as the Python f-string
does. -/
def token_auth (a : RestconfAuthenticator) (username password : String)
    (now : Int) (post : TokenPost) : RestconfAuthenticator × Bool × Nat :=
  match post with
  | .exn => (a, false, 1)
  | .resp status tok expires_in =>
    if status = 200 then
      let expiry := now + expires_in.getD 3600
      let a1 := { a with
        token := tok,
        token_expiry := some expiry,
        headers := { a.headers with
          authorization := some ("Bearer " ++ tok.getD "None"),
          accept := some "application/yang-data+json",
          contentType := some "application/yang-data+json" } }
      (a1, true, 1)
    else
      (a, false, 1)

/-- certificate_auth (lines 125-158): set session.cert, update the
standard headers, issue one probe GET; FileNotFoundError and
RequestException are caught by distinct handlers printing distinct
messages.  Result: new state, the returned bool, and the console lines
printed (exception text abbreviated to the exception class). -/
def certificate_auth (a : RestconfAuthenticator) (cert_file key_file : String)
    (probe : CertProbe) : RestconfAuthenticator × Bool × List String :=
  let a1 := { a with cert := some (cert_file, key_file),
                     headers := a.headers.updateStd }
  match probe with
  | .ok => (a1, true, ["Certificate authentication successful"])
  | .fileNotFound => (a1, false, ["Certificate files not found"])
  | .httpError =>
      (a1, false, ["Certificate authentication failed: HTTPError"])
  | .netError =>
      (a1, false, ["Certificate authentication failed: RequestException"])

/-- is_token_expired (lines 160-164): True when the stored token is falsy
or token_expiry is None, otherwise now greater-or-equal the stored expiry.
Pure: it reads the state and the clock and mutates nothing, which the
Lean type (no state in the result) makes structural. -/
def is_token_expired (a : RestconfAuthenticator) (now : Int) : Bool :=
  if !truthyStr a.token then true
  else
    match a.token_expiry with
    | none => true
    | some e => decide (now ≥ e)

/-- refresh_token (lines 166-180): if the token is expired, delegate to
token_auth; otherwise return True without any call. -/
def refresh_token (a : RestconfAuthenticator) (username password : String)
    (now : Int) (post : TokenPost) : RestconfAuthenticator × Bool × Nat :=
  if a.is_token_expired now then
    a.token_auth username password now post
  else
    (a, true, 0)

/-- make_authenticated_request (lines 182-201): if a truthy token is
stored and it is expired, return None without any network call; otherwise
forward the request and hand the transport's response back unmodified.
The oracle argument is the response of the one forwarded request (the
executions in which the transport returns rather than raises). -/
def make_authenticated_request (a : RestconfAuthenticator) (now : Int)
    (transport : Response) : RestconfAuthenticator × Option Response × Nat :=
  if truthyStr a.token && a.is_token_expired now then
    (a, none, 0)
  else
    (a, some transport, 1)

end RestconfAuthenticator

/-! Configuration lifecycle demo, src/examples/restconf/configuration.py.
Each RestconfConfigurator method issues exactly one session call, catches
RequestException, and returns a bool (get_interface_config returns the
parsed body or None).  For the lifecycle claim only the sequence of
dispatched operations and their outcomes matters, so the orchestrator is
modelled as the trace of (operation, outcome) pairs it produces, with the
per-call outcomes supplied by an oracle. -/

/-- The four dispatch operations the lifecycle demo can issue: create
(POST, create_interface_config), read (GET, get_interface_config), update
(PATCH, update_interface_config), delete (DELETE,
delete_interface_config). -/
inductive LifecycleStep where
  | create
  | read
  | update
  | delete
  deriving Repr, DecidableEq

/-- Oracle for the six network calls demonstrate_interface_lifecycle can
make, in source order (lines 230-266): the create POST, the first
read-back GET, the description-update PATCH, the address-update PATCH, the
final read-back GET, and the cleanup DELETE.  `true` means the call
succeeded (2xx; the method returned True or a body). -/
structure LifecycleOutcomes where
  createOk : Bool
  read1Ok : Bool
  updateDescOk : Bool
  updateIpOk : Bool
  read2Ok : Bool
  deleteOk : Bool
  deriving Repr, DecidableEq

/-- demonstrate_interface_lifecycle (lines 205-266) as the trace of
dispatched operations with their outcomes: the create is issued first; only
if it returned True does the demo proceed, and then it runs read, update,
update, read, delete unconditionally in that order — a failed update or
read only prints, it never skips the following steps.  If the create
returned False nothing further is dispatched. -/
def demonstrate_interface_lifecycle (o : LifecycleOutcomes) :
    List (LifecycleStep × Bool) :=
  if o.createOk then
    [(.create, true), (.read, o.read1Ok), (.update, o.updateDescOk),
     (.update, o.updateIpOk), (.read, o.read2Ok), (.delete, o.deleteOk)]
  else
    [(.create, false)]

/-- Sample state holding a valid token: acquired at instant 0 with a
1000-second lifetime. -/
def sampleTokenState : RestconfAuthenticator :=
  { auth := none, cert := none,
    headers := { accept := some "application/yang-data+json",
                 contentType := some "application/yang-data+json",
                 authorization := some "Bearer tok123" },
    token := some "tok123", token_expiry := some 1000 }

/-- Claim C3: is_token_expired returns true exactly when the token or the
expiry is absent or the current time is at or after the stored expiry, and
false strictly before the expiry when a token exists; by its Lean type it
reads only the state and the clock and mutates nothing. -/
theorem C3_is_token_expired_characterisation (a : RestconfAuthenticator)
    (now : Int) :
    (a.is_token_expired now = true ↔
      truthyStr a.token = false ∨ a.token_expiry = none ∨
        ∃ e, a.token_expiry = some e ∧ now ≥ e) ∧
    (a.is_token_expired now = false ↔
      truthyStr a.token = true ∧ ∃ e, a.token_expiry = some e ∧ now < e) := by
  unfold RestconfAuthenticator.is_token_expired
  cases h : truthyStr a.token <;> cases he : a.token_expiry <;>
    simp [h, he] <;> omega

/-- Claim C3 witness: on a concrete state with a token expiring at 1000,
the characterisation yields non-expiry at 500 and expiry at 1000. -/
theorem C3_witness :
    sampleTokenState.is_token_expired 500 = false ∧
    sampleTokenState.is_token_expired 1000 = true :=
  ⟨(C3_is_token_expired_characterisation sampleTokenState 500).2.mpr
      ⟨by decide, 1000, rfl, by decide⟩,
   (C3_is_token_expired_characterisation sampleTokenState 1000).1.mpr
      (Or.inr (Or.inr ⟨1000, rfl, by decide⟩))⟩

/-- Claim C1: make_authenticated_request fails immediately with None and
zero network calls when a (truthy) token is stored and expired; in every
other case it performs exactly one round trip and returns the transport's
response unmodified, with the state untouched. -/
theorem C1_dispatch_fast_fail (a : RestconfAuthenticator) (now : Int)
    (r : Response) :
    (truthyStr a.token = true ∧ a.is_token_expired now = true →
      a.make_authenticated_request now r = (a, none, 0)) ∧
    (¬(truthyStr a.token = true ∧ a.is_token_expired now = true) →
      a.make_authenticated_request now r = (a, some r, 1)) := by
  unfold RestconfAuthenticator.make_authenticated_request
  constructor
  · rintro ⟨h1, h2⟩
    simp [h1, h2]
  · intro h
    rw [if_neg]
    simp only [Bool.and_eq_true]
    exact fun hc => h hc

/-- Claim C1 witness: the state with token expiring at 1000 fast-fails at
instant 2000 and dispatches normally at instant 500. -/
theorem C1_dispatch_fast_fail_witness :
    sampleTokenState.make_authenticated_request 2000 ⟨200, "body"⟩ =
      (sampleTokenState, none, 0) ∧
    sampleTokenState.make_authenticated_request 500 ⟨200, "body"⟩ =
      (sampleTokenState, some ⟨200, "body"⟩, 1) :=
  ⟨(C1_dispatch_fast_fail sampleTokenState 2000 ⟨200, "body"⟩).1 (by decide),
   (C1_dispatch_fast_fail sampleTokenState 500 ⟨200, "body"⟩).2 (by decide)⟩

/-- Claim C10: the dispatcher returns None exactly when a truthy token is
stored and expired; with no token stored at all — no credential mode
configured, or after every token acquisition failed — it does not
fast-fail and issues exactly one network request, so no credential-mode
precondition is enforced. -/
theorem C10_dispatch_no_precondition (a : RestconfAuthenticator) (now : Int)
    (r : Response) :
    ((a.make_authenticated_request now r).2.1 = none ↔
      truthyStr a.token = true ∧ a.is_token_expired now = true) ∧
    (a.token = none → a.make_authenticated_request now r = (a, some r, 1)) := by
  cases h1 : truthyStr a.token <;> cases h2 : a.is_token_expired now <;>
    simp [RestconfAuthenticator.make_authenticated_request, h1, h2] <;>
    intro ht <;> rw [ht] at h1 <;> simp [truthyStr] at h1

/-- Claim C10 witness: the freshly initialised authenticator (no
credential mode, token None) does not fast-fail and performs one network
call; and the iff instantiated on the expired sample state. -/
theorem C10_dispatch_no_precondition_witness :
    RestconfAuthenticator.init.make_authenticated_request 0 ⟨200, "ok"⟩ =
      (RestconfAuthenticator.init, some ⟨200, "ok"⟩, 1) ∧
    (sampleTokenState.make_authenticated_request 2000 ⟨200, "ok"⟩).2.1 = none :=
  ⟨(C10_dispatch_no_precondition RestconfAuthenticator.init 0 ⟨200, "ok"⟩).2 rfl,
   (C10_dispatch_no_precondition sampleTokenState 2000 ⟨200, "ok"⟩).1.mpr
      (by decide)⟩

/-- Claim C4: refresh_token with a still-valid token is a no-op returning
success with zero network calls (hence idempotent under repetition, the
state being unchanged); with an expired or absent token it performs
exactly one token-acquisition call. -/
theorem C4_refresh_idempotent (a : RestconfAuthenticator) (u p : String)
    (now : Int) (post : TokenPost) :
    (a.is_token_expired now = false →
      a.refresh_token u p now post = (a, true, 0)) ∧
    (a.is_token_expired now = true →
      (a.refresh_token u p now post).2.2 = 1) := by
  constructor
  · intro h
    simp [RestconfAuthenticator.refresh_token, h]
  · intro h
    simp only [RestconfAuthenticator.refresh_token, h, if_true]
    cases post with
    | exn => rfl
    | resp s tok ei =>
      simp only [RestconfAuthenticator.token_auth]
      split <;> rfl

/-- Claim C4 witness: with the token valid at instant 500 refresh is a
no-op with zero calls; expired at instant 2000 it makes one call. -/
theorem C4_refresh_idempotent_witness :
    sampleTokenState.refresh_token "u" "p" 500
        (.resp 200 (some "t2") (some 100)) = (sampleTokenState, true, 0) ∧
    (sampleTokenState.refresh_token "u" "p" 2000
        (.resp 200 (some "t2") (some 100))).2.2 = 1 :=
  ⟨(C4_refresh_idempotent sampleTokenState "u" "p" 500 _).1 (by decide),
   (C4_refresh_idempotent sampleTokenState "u" "p" 2000 _).2 (by decide)⟩

/-- Claim C9: token_auth is atomic on failure — whenever it returns False
(non-200 status or a caught transport exception), the entire authenticator
state, in particular the stored token and token_expiry, is unchanged, so a
previously acquired token survives a failed acquisition. -/
theorem C9_token_auth_atomic_on_failure (a : RestconfAuthenticator)
    (u p : String) (now : Int) (post : TokenPost)
    (h : (a.token_auth u p now post).2.1 = false) :
    (a.token_auth u p now post).1 = a := by
  cases post with
  | exn => rfl
  | resp s tok ei =>
    by_cases hs : s = 200
    · simp [RestconfAuthenticator.token_auth, hs] at h
    · simp [RestconfAuthenticator.token_auth, hs]

/-- Claim C9 witness: a 401 from the token endpoint leaves the sample
state, previously acquired token included, exactly as it was. -/
theorem C9_token_auth_atomic_on_failure_witness :
    (sampleTokenState.token_auth "u" "p" 0 (.resp 401 none none)).2.1 = false ∧
    (sampleTokenState.token_auth "u" "p" 0 (.resp 401 none none)).1 =
      sampleTokenState :=
  ⟨by decide,
   C9_token_auth_atomic_on_failure sampleTokenState "u" "p" 0 _ (by decide)⟩

/-- Claim C6: when the verification probe of basic_auth fails (network
error, or non-2xx status turned into an exception by raise_for_status),
basic_auth returns False instead of raising — its Lean result type is
total precisely because the source catches RequestException — and the
basic-auth credentials and the headers set before the probe remain set. -/
theorem C6_basic_auth_failure_keeps_credentials (a : RestconfAuthenticator)
    (u p : String) (probe : HttpProbe) (h : probe ≠ HttpProbe.ok) :
    (a.basic_auth u p probe).2.1 = false ∧
    (a.basic_auth u p probe).1.auth = some (u, p) ∧
    (a.basic_auth u p probe).1.headers.accept =
      some "application/yang-data+json" ∧
    (a.basic_auth u p probe).1.headers.contentType =
      some "application/yang-data+json" := by
  cases probe with
  | ok => exact absurd rfl h
  | httpError => exact ⟨rfl, rfl, rfl, rfl⟩
  | netError => exact ⟨rfl, rfl, rfl, rfl⟩

/-- Claim C6 witness: a network error during the probe on the fresh
authenticator returns False and leaves the credentials set. -/
theorem C6_basic_auth_failure_keeps_credentials_witness :
    (RestconfAuthenticator.init.basic_auth "admin" "pw" .netError).2.1 =
      false ∧
    (RestconfAuthenticator.init.basic_auth "admin" "pw" .netError).1.auth =
      some ("admin", "pw") ∧
    (RestconfAuthenticator.init.basic_auth
        "admin" "pw" .netError).1.headers.accept =
      some "application/yang-data+json" ∧
    (RestconfAuthenticator.init.basic_auth
        "admin" "pw" .netError).1.headers.contentType =
      some "application/yang-data+json" :=
  C6_basic_auth_failure_keeps_credentials RestconfAuthenticator.init
    "admin" "pw" .netError (by decide)

/-- Claim C8: certificate_auth fails through the FileNotFound handler when
the certificate files are missing and through the transport-error handler
when the probe request fails, and the two failure outcomes (the console
lines of the two handlers) are distinct. -/
theorem C8_certificate_failures_distinct (a : RestconfAuthenticator)
    (c k : String) :
    (a.certificate_auth c k .fileNotFound).2.1 = false ∧
    (a.certificate_auth c k .netError).2.1 = false ∧
    (a.certificate_auth c k .fileNotFound).2.2 ≠
      (a.certificate_auth c k .netError).2.2 := by
  refine ⟨rfl, rfl, ?_⟩
  show (["Certificate files not found"] : List String) ≠
    ["Certificate authentication failed: RequestException"]
  decide

/-- Claim C8 witness: the two failure outcomes on a concrete invocation. -/
theorem C8_certificate_failures_distinct_witness :
    (RestconfAuthenticator.init.certificate_auth
        "client.crt" "client.key" .fileNotFound).2.1 = false ∧
    (RestconfAuthenticator.init.certificate_auth
        "client.crt" "client.key" .netError).2.1 = false ∧
    (RestconfAuthenticator.init.certificate_auth
        "client.crt" "client.key" .fileNotFound).2.2 ≠
      (RestconfAuthenticator.init.certificate_auth
        "client.crt" "client.key" .netError).2.2 :=
  C8_certificate_failures_distinct RestconfAuthenticator.init
    "client.crt" "client.key"

/-- Claim C5: a failed create makes the lifecycle demo dispatch nothing
further — its trace is exactly the single failed create step, one failure
reported — while after a successful create the full sequence runs and the
final delete is dispatched whatever the intervening read and update
outcomes were. -/
theorem C5_lifecycle_abort_and_cleanup (o : LifecycleOutcomes) :
    (o.createOk = false →
      demonstrate_interface_lifecycle o = [(.create, false)]) ∧
    (o.createOk = true →
      demonstrate_interface_lifecycle o =
        [(.create, true), (.read, o.read1Ok), (.update, o.updateDescOk),
         (.update, o.updateIpOk), (.read, o.read2Ok),
         (.delete, o.deleteOk)] ∧
      (LifecycleStep.delete, o.deleteOk) ∈
        demonstrate_interface_lifecycle o) := by
  constructor
  · intro h
    simp [demonstrate_interface_lifecycle, h]
  · intro h
    refine ⟨by simp [demonstrate_interface_lifecycle, h], ?_⟩
    simp [demonstrate_interface_lifecycle, h]

/-- Claim C5 witness: with the create failing the trace is the single
failed create; with the create succeeding and every intermediate step
failing, the delete is still dispatched. -/
theorem C5_lifecycle_abort_and_cleanup_witness :
    demonstrate_interface_lifecycle ⟨false, true, true, true, true, true⟩ =
      [(.create, false)] ∧
    (LifecycleStep.delete, true) ∈
      demonstrate_interface_lifecycle ⟨true, false, false, false, false, true⟩ :=
  ⟨(C5_lifecycle_abort_and_cleanup _).1 rfl,
   ((C5_lifecycle_abort_and_cleanup _).2 rfl).2⟩

/-- Claim C2 counterexample: after a successful token_auth followed by a
successful basic_auth, the bearer Authorization header is still present in
the session's default headers (basic_auth only overwrites Accept and
Content-Type), and the basic credentials and the old token state coexist —
refuting that the second call fully replaces the first mode's headers and
that exactly one credential mode is active. -/
theorem C2_counterexample :
    ((RestconfAuthenticator.init.token_auth "u" "p" 0
        (.resp 200 (some "tok123") (some 3600))).1.basic_auth
        "admin" "pw" .ok).2.1 = true ∧
    ((RestconfAuthenticator.init.token_auth "u" "p" 0
        (.resp 200 (some "tok123") (some 3600))).1.basic_auth
        "admin" "pw" .ok).1.headers.authorization = some "Bearer tok123" ∧
    ((RestconfAuthenticator.init.token_auth "u" "p" 0
        (.resp 200 (some "tok123") (some 3600))).1.basic_auth
        "admin" "pw" .ok).1.auth = some ("admin", "pw") ∧
    ((RestconfAuthenticator.init.token_auth "u" "p" 0
        (.resp 200 (some "tok123") (some 3600))).1.basic_auth
        "admin" "pw" .ok).1.token = some "tok123" := by
  decide

/-- Claim C2 amended: a successful basic_auth after token_auth installs
the basic-auth credentials and refreshes Accept and Content-Type, but the
prior bearer Authorization header and the stored token state are left in
place in the session's default headers. -/
theorem C2_amended_basic_auth_keeps_bearer (a : RestconfAuthenticator)
    (u p : String) (probe : HttpProbe) :
    (a.basic_auth u p probe).1.auth = some (u, p) ∧
    (a.basic_auth u p probe).1.headers.authorization =
      a.headers.authorization ∧
    (a.basic_auth u p probe).1.token = a.token ∧
    (a.basic_auth u p probe).1.token_expiry = a.token_expiry := by
  cases probe with
  | ok => exact ⟨rfl, rfl, rfl, rfl⟩
  | httpError => exact ⟨rfl, rfl, rfl, rfl⟩
  | netError => exact ⟨rfl, rfl, rfl, rfl⟩

/-- Claim C7 counterexample: two successful token_auth runs issued at
different instants (0 and 5) whose expiry computations coincide produce
identical authenticator states, so the issuance time is not recorded in
the stored state — refuting that an issued-at timestamp is part of the
stored token state. -/
theorem C7_counterexample :
    RestconfAuthenticator.init.token_auth "u" "p" 0
        (.resp 200 (some "tok") (some 10)) =
      RestconfAuthenticator.init.token_auth "u" "p" 5
        (.resp 200 (some "tok") (some 5)) ∧
    (0 : Int) ≠ 5 := by
  decide

/-- Claim C7 amended: after every successful token_auth call the stored
token state comprises the token value and the expiry timestamp (the
current instant plus the server-declared expires_in, default 3600); no
separate issued-at timestamp is stored. -/
theorem C7_amended_token_state (a : RestconfAuthenticator) (u p : String)
    (now : Int) (tok : Option String) (ei : Option Int) :
    (a.token_auth u p now (.resp 200 tok ei)).2.1 = true ∧
    (a.token_auth u p now (.resp 200 tok ei)).1.token = tok ∧
    (a.token_auth u p now (.resp 200 tok ei)).1.token_expiry =
      some (now + ei.getD 3600) := by
  refine ⟨?_, ?_, ?_⟩ <;> simp [RestconfAuthenticator.token_auth]
